import Mathlib

/-!
Shallow embedding of `src/job_scraper.py` (Job Market Signal Detector, v6 Wide Net).

The script queries an external scraping library per (search, location) pair,
concatenates the successful batches, applies four row filters (recency,
international firewall, title noise, California-or-remote admission), projects
a fixed column list, sorts by `date_posted` descending and writes a CSV.

Modelling conventions:
- a DataFrame row is a `Record`; missing cells are `none`;
- calendar dates are `Int` day numbers; `today` is a parameter;
- Python `str.lower` on the ASCII strings involved is `lowerStr`;
- Python `sub in s` is `strHasSub s sub`;
- pandas `Series.str.contains(pat, case=False, na=False)` where `pat` is an
  alternation of literal substrings is `containsAnyCI`;
- a raised exception from the scraping library is `Except.error`;
- `sort_values(by='date_posted', ascending=False)` is modelled after
  `pandas.core.sorting.nargsort`: an ascending argsort of the key column
  followed by reversal of the indexer.  numpy's default `quicksort` falls back
  to insertion sort (which is stable) below 16 elements, so on small frames
  the ascending argsort is exactly a stable ascending sort and the descending
  result is its reversal; we model the ascending argsort with the stable
  `List.mergeSort`.
-/

/-- One row of the jobs DataFrame.  Fields are the columns the script touches;
missing cells (pandas NaN / absent column) are `none`. -/
structure Record where
  title : Option String := none
  company : Option String := none
  site : Option String := none
  job_url : Option String := none
  location : Option String := none
  is_remote : Option Bool := none
  min_amount : Option Int := none
  max_amount : Option Int := none
  interval : Option String := none
  date_posted : Option Int := none
  category : Option String := none
  search_location : Option String := none
  deriving DecidableEq, Repr

/-- Character-list version of Python `s.startswith(sub)`. -/
def charsIsPfx : List Char → List Char → Bool
  | [], _ => true
  | _ :: _, [] => false
  | a :: as, b :: bs => a == b && charsIsPfx as bs

/-- Character-list version of Python substring membership `sub in s`. -/
def charsHasSub (sub : List Char) : List Char → Bool
  | [] => sub.isEmpty
  | l@(_ :: t) => charsIsPfx sub l || charsHasSub sub t

/-- Python `sub in s` on strings. -/
def strHasSub (s sub : String) : Bool :=
  charsHasSub sub.data s.data

/-- Python `str.lower` (the source only lowercases ASCII letters). -/
def lowerStr (s : String) : String :=
  String.mk (s.data.map Char.toLower)

/-- Python `str(cell)` on a possibly missing cell: a missing pandas cell is the
float NaN and `str(nan) = "nan"`. -/
def pyStr : Option String → String
  | some s => s
  | none => "nan"

/-- pandas `cell.str.contains(pat, case=False, na=False)` for one cell, where
`pat` is the `|`-join of the literal substrings `subs` (none of the substrings
used by the script contains a regex metacharacter): a missing cell yields
`false` (`na=False`), otherwise the test is case-insensitive substring search
for any alternative. -/
def containsAnyCI (cell : Option String) (subs : List String) : Bool :=
  match cell with
  | none => false
  | some s => subs.any (fun sub => strHasSub (lowerStr s) (lowerStr sub))

/-- Line 17: the two target locations. -/
def target_locations : List String := ["San Francisco Bay Area, CA", "Remote"]

/-- Lines 20-52: one configured search vertical (name + boolean query). -/
structure SearchSpec where
  name : String
  query : String
  deriving DecidableEq, Repr

/-- Lines 20-52: the six search verticals. -/
def searches : List SearchSpec :=
  [ { name := "General_Tech_DS",
      query := "(\"Data Scientist\" OR \"Applied Scientist\" OR \"Machine Learning Engineer\") AND (\"Python\") AND (\"SQL\")" },
    { name := "Geospatial_Tech",
      query := "(\"Geospatial\" OR \"Remote Sensing\" OR \"GIS\" OR \"Spatial Data\") AND (\"Python\")" },
    { name := "Climate_Risk_Modeling",
      query := "(\"Catastrophe Modeler\" OR \"Risk Analyst\" OR \"Climate Scientist\") AND (\"Wildfire\" OR \"Flood\") AND (\"Python\")" },
    { name := "Environmental_Consulting",
      query := "(\"Climate Resilience\" OR \"Environmental Planner\" OR \"NEPA\") AND (\"Consulting\" OR \"Arcadis\" OR \"AECOM\" OR \"Jacobs\")" },
    { name := "Carbon_MRV_ClimateTech",
      query := "(\"Remote Sensing\" OR \"Geospatial\" OR \"Data Scientist\") AND (\"Carbon\" OR \"Forestry\" OR \"MRV\" OR \"Nature-based Solutions\") AND (\"Python\")" },
    { name := "Quant_Energy_Trading",
      query := "(\"Quantitative Researcher\" OR \"Energy Trader\") AND (\"Python\") AND (\"Stochastic\" OR \"Time Series\" OR \"Power\")" } ]

/-- Lines 67-75: the argument tuple the script passes to `scrape_jobs` for one
(search, location) pair. -/
structure ScrapeRequest where
  site_name : List String
  search_term : String
  google_search_term : String
  location : String
  results_wanted : Nat
  hours_old : Nat
  country_urlpatterns : String
  deriving DecidableEq, Repr

/-- Lines 64-75: the request built for a (search, location) pair, with the
fixed site list, cap, freshness window and country restriction. -/
def mkRequest (s : SearchSpec) (loc : String) : ScrapeRequest :=
  { site_name := ["linkedin", "indeed", "glassdoor", "zip_recruiter", "google"],
    search_term := s.query,
    google_search_term := s.query ++ " jobs in " ++ loc,
    location := loc,
    results_wanted := 15,
    hours_old := 168,
    country_urlpatterns := "USA" }

/-- Lines 78-79: `jobs['Category'] = search['name']` and
`jobs['Search_Location'] = loc` stamp every row of the returned batch. -/
def stampBatch (s : SearchSpec) (loc : String) (jobs : List Record) : List Record :=
  jobs.map (fun r => { r with category := some s.name, search_location := some loc })

/-- Lines 66-86: one iteration of the inner loop body on the accumulator
`all_jobs`.  `scrape_jobs` is the opaque adapter; an exception is
`Except.error` and is swallowed (only logged), an ok-but-empty batch is
skipped, and an ok non-empty batch is stamped and appended. -/
def runQuery (adapter : ScrapeRequest → Except String (List Record))
    (acc : List (List Record)) (s : SearchSpec) (loc : String) : List (List Record) :=
  match adapter (mkRequest s loc) with
  | Except.ok jobs => if jobs.isEmpty then acc else acc ++ [stampBatch s loc jobs]
  | Except.error _ => acc

/-- Lines 60-86: the nested `for search in searches: for loc in
target_locations:` loop, starting from the empty `all_jobs` list. -/
def scraperLoop (adapter : ScrapeRequest → Except String (List Record))
    (specs : List SearchSpec) (locs : List String) : List (List Record) :=
  specs.foldl (fun acc s => locs.foldl (fun acc2 loc => runQuery adapter acc2 s loc) acc) []

/-- Line 90: `pd.concat(all_jobs, ignore_index=True)`. -/
def master_df (adapter : ScrapeRequest → Except String (List Record))
    (specs : List SearchSpec) (locs : List String) : List Record :=
  (scraperLoop adapter specs locs).flatten

/-- Line 93: `master_df.dropna(subset=['date_posted'])`. -/
def dropnaDatePosted (rs : List Record) : List Record :=
  rs.filter (fun r => r.date_posted.isSome)

/-- Line 95: `cutoff_date = (datetime.now() - timedelta(days=7)).date()`. -/
def cutoff_date (today : Int) : Int := today - 7

/-- Line 96: `master_df[master_df['date_posted'] >= cutoff_date]` (rows with a
missing date were already removed on line 93; the `none` branch is the vacuous
comparison result). -/
def recencyFilter (today : Int) (rs : List Record) : List Record :=
  rs.filter (fun r =>
    match r.date_posted with
    | some d => decide (cutoff_date today ≤ d)
    | none => false)

/-- Line 99: the forbidden geography substrings. -/
def forbidden_locs : List String :=
  ["India", "UK", "United Kingdom", "London", "Germany", "France", "Italy",
   "China", "Australia", "Canada", "Europe"]

/-- Lines 100-101: drop rows whose location matches the forbidden-geography
pattern case-insensitively (missing location ⇒ no match ⇒ kept). -/
def internationalFirewall (rs : List Record) : List Record :=
  rs.filter (fun r => !(containsAnyCI r.location forbidden_locs))

/-- Lines 105-109: the forbidden title substrings. -/
def forbidden_titles : List String :=
  ["Sales", "Account Executive", "Recruiter", "Marketing Manager",
   "Nurse", "Driver", "Technician", "Intern", "Unpaid", "Volunteer",
   "Senior Director", "VP of", "Head of"]

/-- Lines 110-111: drop rows whose title matches the forbidden-title pattern
case-insensitively (missing title ⇒ no match ⇒ kept). -/
def noiseFilter (rs : List Record) : List Record :=
  rs.filter (fun r => !(containsAnyCI r.title forbidden_titles))

/-- Lines 114-124: the "California or Remote" admission predicate.
`loc = str(row['location']).lower()`; `row.get('is_remote')` is `none` when
the column is absent or the cell missing; `is_remote is True` holds only for
the boolean `True`. -/
def is_valid_location (row : Record) : Bool :=
  let loc := lowerStr (pyStr row.location)
  let is_remote := row.is_remote
  if strHasSub loc "ca" || strHasSub loc "california" || strHasSub loc "san francisco"
      || strHasSub loc "oakland" || strHasSub loc "san jose" then
    true
  else if is_remote == some true then
    true
  else if strHasSub loc "remote" then
    true
  else
    false

/-- Line 126: `master_df[master_df.apply(is_valid_location, axis=1)]`. -/
def locationAdmission (rs : List Record) : List Record :=
  rs.filter is_valid_location

/-- Lines 129-133: the desired output columns, in order. -/
def desired_columns : List String :=
  ["title", "company", "site", "job_url", "location", "is_remote",
   "min_amount", "max_amount", "interval", "date_posted", "Category"]

/-- Line 135: `[col for col in desired_columns if col in master_df.columns]`. -/
def available_columns (cols : List String) : List String :=
  desired_columns.filter (fun col => cols.contains col)

/-- The sort key of a row: its posted date.  Every row reaching the sort has a
date (line 93 dropped the rest), so the default is never relevant. -/
def dateKey (r : Record) : Int := r.date_posted.getD 0

/-- Line 139: `clean_df.sort_values(by='date_posted', ascending=False)`.
pandas (`pandas.core.sorting.nargsort`) argsorts the key column ascending with
the default kind `'quicksort'` and, because `ascending=False`, reverses the
resulting indexer.  numpy's quicksort runs insertion sort — a stable sort —
below 16 elements, so on small frames the ascending argsort is exactly a
stable ascending sort; the descending result is its reversal.  The stable
ascending sort is modelled by `List.mergeSort`. -/
def sort_values_desc (rs : List Record) : List Record :=
  (rs.mergeSort (fun a b => decide (dateKey a ≤ dateKey b))).reverse

/-- Lines 92-126: the four filter stages in program order, before projection
and sort. -/
def filteredRows (today : Int) (rs : List Record) : List Record :=
  locationAdmission (noiseFilter (internationalFirewall (recencyFilter today (dropnaDatePosted rs))))

/-- Lines 92-139: the rows of the exported CSV, in file order (filters, then
the descending sort; the column projection does not add or remove rows). -/
def exportRows (today : Int) (rs : List Record) : List Record :=
  sort_values_desc (filteredRows today rs)

/-- Lines 60-142: the whole pipeline from the scraper loop to the exported
rows. -/
def programOutput (adapter : ScrapeRequest → Except String (List Record))
    (today : Int) : List Record :=
  exportRows today (master_df adapter searches target_locations)

/-! ## Helper lemmas -/

/-- The admission predicate of lines 114-124, unfolded into the disjunction of
its three ways to admit a row. -/
theorem is_valid_location_iff (r : Record) :
    is_valid_location r = true ↔
      ((strHasSub (lowerStr (pyStr r.location)) "ca" = true
        ∨ strHasSub (lowerStr (pyStr r.location)) "california" = true
        ∨ strHasSub (lowerStr (pyStr r.location)) "san francisco" = true
        ∨ strHasSub (lowerStr (pyStr r.location)) "oakland" = true
        ∨ strHasSub (lowerStr (pyStr r.location)) "san jose" = true)
       ∨ r.is_remote = some true
       ∨ strHasSub (lowerStr (pyStr r.location)) "remote" = true) := by
  cases h1 : strHasSub (lowerStr (pyStr r.location)) "ca" <;>
  cases h2 : strHasSub (lowerStr (pyStr r.location)) "california" <;>
  cases h3 : strHasSub (lowerStr (pyStr r.location)) "san francisco" <;>
  cases h4 : strHasSub (lowerStr (pyStr r.location)) "oakland" <;>
  cases h5 : strHasSub (lowerStr (pyStr r.location)) "san jose" <;>
  cases h6 : strHasSub (lowerStr (pyStr r.location)) "remote" <;>
  simp [is_valid_location, h1, h2, h3, h4, h5, h6, beq_iff_eq]

/-- Sorting is a reverse plus a permutation-preserving stable sort, so it keeps
the row multiset; membership is unchanged. -/
theorem mem_sort_values_desc {r : Record} {rs : List Record} :
    r ∈ sort_values_desc rs ↔ r ∈ rs := by
  simp [sort_values_desc]

/-- Membership in the filtered rows, unfolded into the four stage predicates. -/
theorem mem_filteredRows {today : Int} {rs : List Record} {r : Record} :
    r ∈ filteredRows today rs ↔
      r ∈ rs ∧ (∃ d : Int, r.date_posted = some d ∧ cutoff_date today ≤ d)
      ∧ containsAnyCI r.location forbidden_locs = false
      ∧ containsAnyCI r.title forbidden_titles = false
      ∧ is_valid_location r = true := by
  unfold filteredRows locationAdmission noiseFilter internationalFirewall recencyFilter dropnaDatePosted
  simp only [List.mem_filter, Bool.not_eq_true', Bool.and_eq_true, decide_eq_true_eq]
  cases hd : r.date_posted with
  | none => simp [hd]
  | some d => simp [hd]; tauto

/-- A row is exported iff it survives all four filter stages: the sort and the
column projection neither drop nor re-admit rows. -/
theorem mem_exportRows {today : Int} {rs : List Record} {r : Record} :
    r ∈ exportRows today rs ↔ r ∈ filteredRows today rs := by
  simp [exportRows, mem_sort_values_desc]

/-- On an input whose keys are already ascending, the modelled descending sort
is exactly the reversal. -/
theorem sort_values_desc_of_sorted (rs : List Record)
    (h : rs.Pairwise (fun a b => dateKey a ≤ dateKey b)) :
    sort_values_desc rs = rs.reverse := by
  unfold sort_values_desc
  rw [List.mergeSort_of_sorted]
  exact h.imp (by intro a b hab; simpa using hab)

/-- One loop iteration never removes a batch already accumulated. -/
theorem mem_runQuery {adapter : ScrapeRequest → Except String (List Record)}
    {acc : List (List Record)} {s : SearchSpec} {loc : String} {b : List Record}
    (h : b ∈ acc) : b ∈ runQuery adapter acc s loc := by
  unfold runQuery
  cases adapter (mkRequest s loc) with
  | ok jobs =>
    by_cases he : jobs.isEmpty
    · simp [he, h]
    · simp only [he, if_false]
      exact List.mem_append_left _ h
  | error e => exact h

/-- The inner location loop never removes an accumulated batch. -/
theorem mem_foldl_locs {adapter : ScrapeRequest → Except String (List Record)}
    {s : SearchSpec} {b : List Record} (locs : List String) :
    ∀ acc, b ∈ acc → b ∈ locs.foldl (fun a loc => runQuery adapter a s loc) acc := by
  induction locs with
  | nil => intro acc h; exact h
  | cons l ls ih => intro acc h; exact ih _ (mem_runQuery h)

/-- A successful non-empty query of the inner loop contributes its stamped
batch, whatever the adapter does on the other locations. -/
theorem batch_mem_foldl_locs {adapter : ScrapeRequest → Except String (List Record)}
    {s : SearchSpec} {loc : String} {jobs : List Record}
    (hok : adapter (mkRequest s loc) = Except.ok jobs) (hne : jobs ≠ [])
    (locs : List String) (hl : loc ∈ locs) :
    ∀ acc, stampBatch s loc jobs ∈ locs.foldl (fun a l => runQuery adapter a s l) acc := by
  induction locs with
  | nil => cases hl
  | cons l ls ih =>
    intro acc
    rw [List.foldl_cons]
    rcases List.mem_cons.mp hl with heq | hmem
    · subst heq
      apply mem_foldl_locs
      unfold runQuery
      rw [hok]
      have he : jobs.isEmpty = false := by simpa using hne
      simp [he]
    · exact ih hmem _

/-- The outer search loop never removes an accumulated batch. -/
theorem mem_foldl_specs {adapter : ScrapeRequest → Except String (List Record)}
    {locs : List String} {b : List Record} (specs : List SearchSpec) :
    ∀ acc, b ∈ acc →
      b ∈ specs.foldl (fun acc s => locs.foldl (fun a l => runQuery adapter a s l) acc) acc := by
  induction specs with
  | nil => intro acc h; exact h
  | cons s ss ih => intro acc h; exact ih _ (mem_foldl_locs locs _ h)

/-- A successful non-empty query contributes its stamped batch to the nested
loop's accumulator, whatever the adapter does on the other pairs. -/
theorem batch_mem_scraperLoop {adapter : ScrapeRequest → Except String (List Record)}
    {s : SearchSpec} {loc : String} {jobs : List Record} {locs : List String}
    (hok : adapter (mkRequest s loc) = Except.ok jobs) (hne : jobs ≠ [])
    (hl : loc ∈ locs) (specs : List SearchSpec) (hs : s ∈ specs) :
    ∀ acc, stampBatch s loc jobs ∈
      specs.foldl (fun acc s => locs.foldl (fun a l => runQuery adapter a s l) acc) acc := by
  induction specs with
  | nil => cases hs
  | cons s0 ss ih =>
    intro acc
    rw [List.foldl_cons]
    rcases List.mem_cons.mp hs with heq | hmem
    · subst heq
      exact mem_foldl_specs ss _ (batch_mem_foldl_locs hok hne locs hl acc)
    · exact ih hmem _

/-- Restated from the spec (section 4.2): the aggregated batches are the
stamped ok-and-non-empty query results in catalog-traversal order (searches in
catalog order, and for each search its target locations in order). -/
def specTraversalBatches (adapter : ScrapeRequest → Except String (List Record))
    (specs : List SearchSpec) (locs : List String) : List (List Record) :=
  (specs.flatMap (fun s => locs.map (fun loc => (s, loc)))).filterMap (fun p =>
    match adapter (mkRequest p.1 p.2) with
    | Except.ok jobs => if jobs.isEmpty then none else some (stampBatch p.1 p.2 jobs)
    | Except.error _ => none)

/-- Folding the loop body over a pair list appends exactly the ok-and-non-empty
stamped batches, in order. -/
theorem foldl_pairs_filterMap (adapter : ScrapeRequest → Except String (List Record))
    (pairs : List (SearchSpec × String)) :
    ∀ acc, pairs.foldl (fun a p => runQuery adapter a p.1 p.2) acc
      = acc ++ pairs.filterMap (fun p =>
          match adapter (mkRequest p.1 p.2) with
          | Except.ok jobs => if jobs.isEmpty then none else some (stampBatch p.1 p.2 jobs)
          | Except.error _ => none) := by
  induction pairs with
  | nil => intro acc; simp
  | cons p ps ih =>
    intro acc
    rw [List.foldl_cons, ih, List.filterMap_cons]
    unfold runQuery
    cases adapter (mkRequest p.1 p.2) with
    | ok jobs =>
      by_cases he : jobs.isEmpty
      · simp [he]
      · simp [he]
    | error e => simp

/-- The nested loop is the fold of the loop body over the traversal-order pair
list. -/
theorem foldl_specs_eq_pairs (adapter : ScrapeRequest → Except String (List Record))
    (locs : List String) (specs : List SearchSpec) :
    ∀ acc, specs.foldl (fun acc s => locs.foldl (fun a l => runQuery adapter a s l) acc) acc
      = (specs.flatMap (fun s => locs.map (fun loc => (s, loc)))).foldl
          (fun a p => runQuery adapter a p.1 p.2) acc := by
  induction specs with
  | nil => intro acc; simp
  | cons s ss ih =>
    intro acc
    rw [List.foldl_cons, List.flatMap_cons, List.foldl_append, List.foldl_map]
    exact ih _

/-- The scraper loop computes exactly the spec's traversal-order batch list. -/
theorem scraperLoop_eq (adapter : ScrapeRequest → Except String (List Record))
    (specs : List SearchSpec) (locs : List String) :
    scraperLoop adapter specs locs = specTraversalBatches adapter specs locs := by
  unfold scraperLoop specTraversalBatches
  rw [foldl_specs_eq_pairs, foldl_pairs_filterMap]
  simp

/-! ## Concrete rows and adapters used as witnesses -/

/-- A fresh Oakland data-science row. -/
def recOak : Record := { title := some "Data Scientist", company := some "Acme", location := some "Oakland, CA", is_remote := some false, date_posted := some 100 }

/-- A fresh remote row. -/
def recRemote : Record := { title := some "Data Scientist", company := some "Acme", location := some "Remote", is_remote := some true, date_posted := some 100 }

/-- A fresh New York row: neither Californian nor remote. -/
def recNY : Record := { title := some "Data Scientist", company := some "Acme", location := some "New York, NY", is_remote := some false, date_posted := some 100 }

/-- A fresh San Francisco row. -/
def recSF : Record := { title := some "Data Scientist", company := some "Acme", location := some "San Francisco, CA", is_remote := some false, date_posted := some 100 }

/-- A fresh San Jose machine-learning row. -/
def recSJ : Record := { title := some "Machine Learning Engineer", company := some "Acme", location := some "San Jose, CA", is_remote := some false, date_posted := some 100 }

/-- A row with missing location, title and is_remote cells. -/
def recNull : Record := { title := none, location := none, is_remote := none, date_posted := some 100 }

/-- A fresh Chicago row: not remote and naming no California place, but its
lowercased location contains the two characters "ca". -/
def recChicago : Record := { title := some "Data Scientist", company := some "Acme", location := some "Chicago, IL", is_remote := some false, date_posted := some 100 }

/-- First of two rows that tie on date_posted. -/
def recTieA : Record := { title := some "Data Scientist", company := some "Acme", location := some "Oakland, CA", is_remote := some false, date_posted := some 100 }

/-- Second of two rows that tie on date_posted. -/
def recTieB : Record := { title := some "Data Scientist", company := some "Beta", location := some "Oakland, CA", is_remote := some false, date_posted := some 100 }

/-- First of another pair of rows that tie on date_posted. -/
def recTieC : Record := { title := some "Data Scientist", company := some "Gamma", location := some "Oakland, CA", is_remote := some false, date_posted := some 100 }

/-- Second of another pair of rows that tie on date_posted. -/
def recTieD : Record := { title := some "Data Scientist", company := some "Delta", location := some "Oakland, CA", is_remote := some false, date_posted := some 100 }

/-- A row as the adapter would return it, before stamping. -/
def okRec : Record := { title := some "Geospatial Data Scientist", company := some "Acme", location := some "San Jose, CA", is_remote := some false, date_posted := some 99 }

/-- A one-row successful batch. -/
def okBatch : List Record := [okRec]

/-- An adapter that raises on every "Remote" query and succeeds with `okBatch`
elsewhere. -/
def adapterW : ScrapeRequest → Except String (List Record) :=
  fun req => if req.location = "Remote" then Except.error "connection reset" else Except.ok okBatch

/-- `okRec` as stamped by the Geospatial_Tech search in the Bay Area. -/
def stampedRec : Record := { okRec with category := some "Geospatial_Tech", search_location := some "San Francisco Bay Area, CA" }

/-! ## Claims -/

/-- C1: every record in the final export has a non-null date_posted whose
date is at least the cutoff (today minus 7 days); the recency stage drops the
null-date and stale records and no later stage re-admits any record. -/
theorem date_filter_invariant (today : Int) (rs : List Record) (r : Record)
    (h : r ∈ exportRows today rs) :
    ∃ d : Int, r.date_posted = some d ∧ cutoff_date today ≤ d :=
  (mem_filteredRows.mp (mem_exportRows.mp h)).2.1

/-- Witness for C1 at a concrete fresh Oakland row. -/
theorem date_filter_invariant_witness :
    ∃ d : Int, recOak.date_posted = some d ∧ cutoff_date 100 ≤ d :=
  date_filter_invariant 100 [recOak] recOak (mem_exportRows.mpr (by decide))

/-- C2 (counterexample): two distinct surviving records with equal date_posted
leave the pipeline in the order opposite to their pre-sort (concatenation)
order, so the claimed stability fails. -/
theorem sort_stability_counterexample :
    exportRows 100 [recTieA, recTieB] = [recTieB, recTieA]
    ∧ recTieA ≠ recTieB
    ∧ recTieA.date_posted = recTieB.date_posted := by
  refine ⟨?_, by decide, rfl⟩
  show sort_values_desc (filteredRows 100 [recTieA, recTieB]) = _
  have hf : filteredRows 100 [recTieA, recTieB] = [recTieA, recTieB] := by decide
  rw [hf, sort_values_desc_of_sorted]
  · rfl
  · simp [List.pairwise_cons, dateKey, recTieA, recTieB]

/-- C2 (amended): the exported rows are sorted by date_posted in descending
order and are a permutation of the surviving rows, but on equal date_posted
the relative order is the reverse of the pre-sort order (pandas implements the
descending sort as an ascending argsort followed by reversal of the indexer;
tie order is never the original order under that scheme). -/
theorem sort_desc_ties_reversed (today : Int) (rs : List Record) :
    (exportRows today rs).Pairwise (fun a b => dateKey b ≤ dateKey a)
    ∧ (exportRows today rs).Perm (filteredRows today rs)
    ∧ ∀ a b : Record, dateKey a = dateKey b →
        List.Sublist [a, b] (filteredRows today rs) →
        List.Sublist [b, a] (exportRows today rs) := by
  have htrans : ∀ a b c : Record, (decide (dateKey a ≤ dateKey b)) = true →
      (decide (dateKey b ≤ dateKey c)) = true → (decide (dateKey a ≤ dateKey c)) = true := by
    intro a b c hab hbc
    simp only [decide_eq_true_eq] at *
    omega
  have htotal : ∀ a b : Record,
      ((decide (dateKey a ≤ dateKey b)) || (decide (dateKey b ≤ dateKey a))) = true := by
    intro a b
    rcases Int.le_total (dateKey a) (dateKey b) with h | h <;> simp [h]
  refine ⟨?_, ?_, ?_⟩
  · unfold exportRows sort_values_desc
    rw [List.pairwise_reverse]
    have hs := List.sorted_mergeSort htrans htotal (filteredRows today rs)
    exact hs.imp (by intro a b hab; simpa using hab)
  · unfold exportRows sort_values_desc
    exact (List.reverse_perm _).trans (List.mergeSort_perm _ _)
  · intro a b hk hsub
    unfold exportRows sort_values_desc
    have h1 := List.pair_sublist_mergeSort htrans htotal (by simp [hk]) hsub
    simpa using h1.reverse

/-- Witness for the amended C2 at a concrete pair of tied rows. -/
theorem sort_desc_ties_reversed_witness :
    List.Sublist [recTieD, recTieC] (exportRows 100 [recTieC, recTieD]) :=
  (sort_desc_ties_reversed 100 [recTieC, recTieD]).2.2 recTieC recTieD rfl (List.Sublist.refl _)

/-- C3: every exported record has a location containing a California indicator
(the state abbreviation or name, or a named Bay Area city, case-insensitively),
or is_remote exactly true, or a location containing "remote"
case-insensitively; and any record satisfying none of the three is dropped by
the location-admission stage. -/
theorem location_admission_invariant (today : Int) (rs : List Record) :
    (∀ r ∈ exportRows today rs,
        (strHasSub (lowerStr (pyStr r.location)) "ca" = true
         ∨ strHasSub (lowerStr (pyStr r.location)) "california" = true
         ∨ strHasSub (lowerStr (pyStr r.location)) "san francisco" = true
         ∨ strHasSub (lowerStr (pyStr r.location)) "oakland" = true
         ∨ strHasSub (lowerStr (pyStr r.location)) "san jose" = true)
        ∨ r.is_remote = some true
        ∨ strHasSub (lowerStr (pyStr r.location)) "remote" = true)
    ∧ (∀ (l : List Record) (r : Record),
        ¬ ((strHasSub (lowerStr (pyStr r.location)) "ca" = true
            ∨ strHasSub (lowerStr (pyStr r.location)) "california" = true
            ∨ strHasSub (lowerStr (pyStr r.location)) "san francisco" = true
            ∨ strHasSub (lowerStr (pyStr r.location)) "oakland" = true
            ∨ strHasSub (lowerStr (pyStr r.location)) "san jose" = true)
           ∨ r.is_remote = some true
           ∨ strHasSub (lowerStr (pyStr r.location)) "remote" = true) →
        r ∉ locationAdmission l) := by
  constructor
  · intro r h
    exact (is_valid_location_iff r).mp (mem_filteredRows.mp (mem_exportRows.mp h)).2.2.2.2
  · intro l r hnot hmem
    exact hnot ((is_valid_location_iff r).mp (List.mem_filter.mp hmem).2)

/-- Witness for C3: a remote row is exported and satisfies the disjunction; a
New York row satisfying none of the conditions is not admitted. -/
theorem location_admission_invariant_witness :
    ((strHasSub (lowerStr (pyStr recRemote.location)) "ca" = true
      ∨ strHasSub (lowerStr (pyStr recRemote.location)) "california" = true
      ∨ strHasSub (lowerStr (pyStr recRemote.location)) "san francisco" = true
      ∨ strHasSub (lowerStr (pyStr recRemote.location)) "oakland" = true
      ∨ strHasSub (lowerStr (pyStr recRemote.location)) "san jose" = true)
     ∨ recRemote.is_remote = some true
     ∨ strHasSub (lowerStr (pyStr recRemote.location)) "remote" = true)
    ∧ recNY ∉ locationAdmission [recNY] :=
  ⟨(location_admission_invariant 100 [recRemote]).1 recRemote (mem_exportRows.mpr (by decide)),
   (location_admission_invariant 100 []).2 [recNY] recNY (by decide)⟩

/-- C4: no exported record's location case-insensitively contains any
substring of the fixed forbidden-location list. -/
theorem geography_exclusion_invariant (today : Int) (rs : List Record) (r : Record)
    (h : r ∈ exportRows today rs) :
    containsAnyCI r.location forbidden_locs = false :=
  (mem_filteredRows.mp (mem_exportRows.mp h)).2.2.1

/-- Witness for C4 at a concrete exported San Francisco row. -/
theorem geography_exclusion_invariant_witness :
    containsAnyCI recSF.location forbidden_locs = false :=
  geography_exclusion_invariant 100 [recSF] recSF (mem_exportRows.mpr (by decide))

/-- C5: no exported record's title case-insensitively contains any substring
of the fixed forbidden-title list. -/
theorem title_noise_invariant (today : Int) (rs : List Record) (r : Record)
    (h : r ∈ exportRows today rs) :
    containsAnyCI r.title forbidden_titles = false :=
  (mem_filteredRows.mp (mem_exportRows.mp h)).2.2.2.1

/-- Witness for C5 at a concrete exported San Jose row. -/
theorem title_noise_invariant_witness :
    containsAnyCI recSJ.title forbidden_titles = false :=
  title_noise_invariant 100 [recSJ] recSJ (mem_exportRows.mpr (by decide))

/-- C6: an adapter exception on one (search, location) pair is absorbed by the
loop, and every other successful non-empty query's stamped batch still reaches
the aggregated result set, record by record — a single failing query never
aborts the scan. -/
theorem failing_query_isolation (adapter : ScrapeRequest → Except String (List Record))
    (specs : List SearchSpec) (locs : List String)
    (s : SearchSpec) (loc : String) (jobs : List Record)
    (hs : s ∈ specs) (hl : loc ∈ locs)
    (hok : adapter (mkRequest s loc) = Except.ok jobs) (hne : jobs ≠ []) :
    stampBatch s loc jobs ∈ scraperLoop adapter specs locs
    ∧ ∀ r ∈ stampBatch s loc jobs, r ∈ master_df adapter specs locs := by
  have hmem : stampBatch s loc jobs ∈ scraperLoop adapter specs locs :=
    batch_mem_scraperLoop hok hne hl specs hs []
  refine ⟨hmem, ?_⟩
  intro r hr
  unfold master_df
  exact List.mem_flatten.mpr ⟨stampBatch s loc jobs, hmem, hr⟩

/-- Witness for C6: with an adapter that raises on every "Remote" query, the
first search's Bay Area batch still reaches the aggregate. -/
theorem failing_query_isolation_witness :
    stampBatch { name := "General_Tech_DS", query := "(\"Data Scientist\" OR \"Applied Scientist\" OR \"Machine Learning Engineer\") AND (\"Python\") AND (\"SQL\")" } "San Francisco Bay Area, CA" okBatch
      ∈ scraperLoop adapterW searches target_locations :=
  (failing_query_isolation adapterW searches target_locations _ "San Francisco Bay Area, CA" okBatch
    (by decide) (by decide) rfl (by decide)).1

/-- C7: the exported column selection is the intersection of the fixed
desired-column list with the columns actually present, kept in the desired
list's order (a sublist of it); a desired column absent from the schema is
simply dropped. -/
theorem column_projection_intersection (cols : List String) :
    List.Sublist (available_columns cols) desired_columns
    ∧ ∀ c : String, c ∈ available_columns cols ↔ (c ∈ desired_columns ∧ c ∈ cols) := by
  constructor
  · exact List.filter_sublist _
  · intro c
    simp [available_columns, List.mem_filter]

/-- Witness for C7 at a concrete schema missing most desired columns. -/
theorem column_projection_intersection_witness :
    List.Sublist (available_columns ["date_posted", "title", "posted_by"]) desired_columns :=
  (column_projection_intersection ["date_posted", "title", "posted_by"]).1

/-- C8: each (search, location) query is issued with results_wanted 15,
hours_old 168 and the USA country restriction; the loop's aggregate equals the
stamped ok-and-non-empty batches in catalog-traversal order; and stamping sets
every record's category to the search name and search_location to the query
location. -/
theorem adapter_invocation_spec (adapter : ScrapeRequest → Except String (List Record)) :
    (∀ (s : SearchSpec) (loc : String),
        (mkRequest s loc).results_wanted = 15 ∧ (mkRequest s loc).hours_old = 168
        ∧ (mkRequest s loc).country_urlpatterns = "USA")
    ∧ (∀ (specs : List SearchSpec) (locs : List String),
        scraperLoop adapter specs locs = specTraversalBatches adapter specs locs)
    ∧ (∀ (s : SearchSpec) (loc : String) (jobs : List Record) (r : Record),
        r ∈ stampBatch s loc jobs → r.category = some s.name ∧ r.search_location = some loc) := by
  refine ⟨fun s loc => ⟨rfl, rfl, rfl⟩, scraperLoop_eq adapter, ?_⟩
  intro s loc jobs r hr
  rcases List.mem_map.mp hr with ⟨a, _, rfl⟩
  exact ⟨rfl, rfl⟩

/-- Witness for C8 at a concrete stamped record. -/
theorem adapter_invocation_spec_witness :
    stampedRec.category = some "Geospatial_Tech"
    ∧ stampedRec.search_location = some "San Francisco Bay Area, CA" :=
  (adapter_invocation_spec adapterW).2.2 { name := "Geospatial_Tech", query := "q" }
    "San Francisco Bay Area, CA" okBatch stampedRec (by decide)

/-- C9: the filter stages are total functions, and a missing optional field
never matches a stage's positive condition: a null location passes the
geography blacklist, a null title passes the title blacklist, and a missing
is_remote behaves exactly like false in the admission rule. -/
theorem filter_stages_missing_fields :
    (∀ (r : Record) (l : List Record), r.location = none → r ∈ l → r ∈ internationalFirewall l)
    ∧ (∀ (r : Record) (l : List Record), r.title = none → r ∈ l → r ∈ noiseFilter l)
    ∧ (∀ r : Record, r.is_remote = none →
        is_valid_location r = is_valid_location { r with is_remote := some false }) := by
  refine ⟨?_, ?_, ?_⟩
  · intro r l hnone hmem
    simp [internationalFirewall, List.mem_filter, hmem, containsAnyCI, hnone]
  · intro r l hnone hmem
    simp [noiseFilter, List.mem_filter, hmem, containsAnyCI, hnone]
  · intro r h
    simp [is_valid_location, h]

/-- Witness for C9 at a row with all three optional cells missing. -/
theorem filter_stages_missing_fields_witness :
    recNull ∈ internationalFirewall [recNull]
    ∧ recNull ∈ noiseFilter [recNull]
    ∧ is_valid_location recNull = is_valid_location { recNull with is_remote := some false } :=
  ⟨filter_stages_missing_fields.1 recNull [recNull] rfl (by simp),
   filter_stages_missing_fields.2.1 recNull [recNull] rfl (by simp),
   filter_stages_missing_fields.2.2 recNull rfl⟩

/-- C10: the California test is a bare two-character substring match — any row
whose lowercased location contains "ca" anywhere is admitted — and in
particular a non-remote "Chicago, IL" row naming no California place survives
to the final export. -/
theorem bare_ca_substring_admission :
    (∀ r : Record, strHasSub (lowerStr (pyStr r.location)) "ca" = true →
        is_valid_location r = true)
    ∧ recChicago.is_remote = some false
    ∧ strHasSub (lowerStr (pyStr recChicago.location)) "california" = false
    ∧ strHasSub (lowerStr (pyStr recChicago.location)) "san francisco" = false
    ∧ strHasSub (lowerStr (pyStr recChicago.location)) "oakland" = false
    ∧ strHasSub (lowerStr (pyStr recChicago.location)) "san jose" = false
    ∧ strHasSub (lowerStr (pyStr recChicago.location)) "remote" = false
    ∧ recChicago ∈ exportRows 100 [recChicago] := by
  refine ⟨?_, rfl, by decide, by decide, by decide, by decide, by decide,
    mem_exportRows.mpr (by decide)⟩
  intro r h
  simp [is_valid_location, h]

/-- Witness for C10 at the Chicago row itself. -/
theorem bare_ca_substring_admission_witness :
    is_valid_location recChicago = true :=
  bare_ca_substring_admission.1 recChicago (by decide)
